import Mathlib

/-!
Shallow embedding of the BusNav server (Hono/Deno edge function, `index.tsx`
in the repository) together with the key-value store contract it consumes.

Conventions of the embedding:
* JavaScript strings are Lean `String`s; JSON numbers are `ℚ` (the source
  never uses NaN/Infinity on the modelled paths).
* A JSON field that may be absent is an `Option`; JavaScript truthiness on a
  string is "present and nonempty", on a number it is "present and nonzero".
* The external identity provider (Supabase auth) is an explicit function
  parameter; handlers additionally report the list of provider calls they
  performed, so "no provider call is made" is a provable statement.
* `Date.now()` / `new Date().toISOString()` are explicit parameters.
* HTTP responses are triples `(status, body, store)`; `c.json(x, s)` becomes
  status `s` (200 when omitted) with body `Except.error msg` for `{error: msg}`
  and `Except.ok payload` for success payloads.
-/

/-- JavaScript `s.startsWith(p)` on strings, via the underlying character
lists (case-sensitive, exact prefix). -/
def startsWithB (s p : String) : Bool :=
  p.data.isPrefixOf s.data

/-- JavaScript `String.prototype.split(sep)` restricted to a single-character
separator, on character lists: `"a b".split(' ') = ["a","b"]`,
`"".split(' ') = [""]`. -/
def splitCh (sep : Char) : List Char → List (List Char)
  | [] => [[]]
  | c :: cs =>
    if c = sep then
      [] :: splitCh sep cs
    else
      match splitCh sep cs with
      | [] => [[c]]
      | s :: ss => (c :: s) :: ss

/-- The token extraction `authHeader.split(' ')[1]` from `verifyAuth`. -/
def extractToken (h : String) : String :=
  ⟨(splitCh ' ' h.data).getD 1 []⟩

/-- JavaScript truthiness of a possibly-absent string: `!x` is false exactly
when `x` is present and nonempty. -/
def truthyS : Option String → Bool
  | none => false
  | some s => s != ""

/-- JavaScript truthiness of a possibly-absent number: `!x` is false exactly
when `x` is present and nonzero. -/
def truthyQ : Option ℚ → Bool
  | none => false
  | some q => q != 0

/-- JavaScript `x || null` on a possibly-absent string field (used for
`address`, `comment`, `roll_number`, ...): a falsy value collapses to null. -/
def jsOr : Option String → Option String
  | none => none
  | some s => if s = "" then none else some s

/-- Case folding of one ASCII character, for stating "equal up to letter
case" in claims about emails. -/
def lowerCh (c : Char) : Char :=
  if 'A' ≤ c ∧ c ≤ 'Z' then Char.ofNat (c.toNat + 32) else c

/-- Two strings are equal up to letter case (ASCII). Used only to state
claims; the source never folds case. -/
def eqUpToCase (a b : String) : Bool :=
  a.data.map lowerCh == b.data.map lowerCh

/-! ## The key-value store -/

/-- Modelled from the spec: the file `kv_store.tsx` is imported by the server
but is not among the repository sources; §4.2 of the spec gives its contract.
`set(key, value)` is an idempotent overwrite — last writer wins, no history:
the store keeps exactly one record per key. The store is a finite association
list with at most one entry per key. -/
def kvSet {α : Type} (store : List (String × α)) (k : String) (v : α) :
    List (String × α) :=
  (k, v) :: store.filter (fun p => p.1 != k)

/-- Modelled from the spec: `get(key)` returns the stored value or an explicit
absent marker (§4.2). -/
def kvGet {α : Type} (store : List (String × α)) (k : String) : Option α :=
  (store.find? (fun p => p.1 == k)).map (fun p => p.2)

/-- Modelled from the spec: `getByPrefix(p)` (the spec's `scan`) returns all
records whose key starts with `p`, in unspecified order; empty list when none
match (§4.2). -/
def kvGetByPre {α : Type} (store : List (String × α)) (p : String) : List α :=
  (store.filter (fun q => startsWithB q.1 p)).map (fun q => q.2)

/-! ## Identity provider and token verification -/

/-- What `supabase.auth.getUser(token)` yields on success: the user id and a
possibly-absent email (the source then coerces a missing email with
`data.user.email || ''`). -/
structure ProviderUser where
  id : String
  email : Option String
deriving DecidableEq

/-- The identity descriptor `verifyAuth` returns: `{userId, email}`. -/
structure AuthUser where
  userId : String
  email : String
deriving DecidableEq

/-- Embedding of `verifyAuth(authHeader)`. The identity provider is the
function argument `getUser : token → user-or-null`; the second component of
the result is the list of tokens actually sent to the provider, so that
"no provider call is made" is expressible. Mirrors the source: a null header
or one not starting with the exact string `"Bearer "` yields null without
consulting the provider; otherwise the token is `authHeader.split(' ')[1]`
and a provider error / missing user yields null. -/
def verifyAuth (getUser : String → Option ProviderUser)
    (authHeader : Option String) : Option AuthUser × List String :=
  match authHeader with
  | none => (none, [])
  | some h =>
    if !startsWithB h "Bearer " then
      (none, [])
    else
      let token := extractToken h
      match getUser token with
      | none => (none, [token])
      | some u => (some ⟨u.id, u.email.getD ""⟩, [token])

/-! ## Stored record shapes -/

/-- The value written by `POST /user/location`. -/
structure LocationRecord where
  latitude : ℚ
  longitude : ℚ
  address : Option String
  updated_at : String
deriving DecidableEq

/-- The value written by `POST /user/pickup-route`. -/
structure PickupRouteRecord where
  bus_id : String
  pickup_latitude : ℚ
  pickup_longitude : ℚ
  created_at : String
deriving DecidableEq

/-- The value written by `POST /feedback`. -/
structure FeedbackRecord where
  driver_id : String
  user_id : String
  user_email : String
  rating : ℚ
  comment : Option String
  created_at : String
deriving DecidableEq

/-- The JSON values this server ever stores in the key-value store. -/
inductive StoredValue where
  | univ (university_id : String)
  | location (r : LocationRecord)
  | pickupRoute (r : PickupRouteRecord)
  | feedback (r : FeedbackRecord)
deriving DecidableEq

/-- The server's key-value store state. -/
abbrev Store := List (String × StoredValue)

/-! ## Request bodies -/

/-- Body of `POST /auth/signup` (each field may be absent). -/
structure SignupBody where
  email : Option String
  password : Option String
  name : Option String
  role : Option String
  roll_number : Option String
  phone_number : Option String
  emergency_phone : Option String
deriving DecidableEq

/-- Body of `POST /user/university`. -/
structure UnivBody where
  university_id : Option String
deriving DecidableEq

/-- Body of `POST /user/location`. -/
structure LocationBody where
  latitude : Option ℚ
  longitude : Option ℚ
  address : Option String
deriving DecidableEq

/-- Body of `POST /user/pickup-route`. -/
structure PickupBody where
  bus_id : Option String
  pickup_latitude : Option ℚ
  pickup_longitude : Option ℚ
deriving DecidableEq

/-- Body of `POST /feedback`. -/
structure FeedbackBody where
  driver_id : Option String
  rating : Option ℚ
  comment : Option String
deriving DecidableEq

/-! ## Signup handler -/

/-- A call the signup handler makes to the external identity provider. -/
inductive ProviderCall where
  | listUsers
  | createUser (email : String)
deriving DecidableEq

/-- The identity summary a successful signup reports. -/
structure CreatedUser where
  id : String
  email : String
deriving DecidableEq

/-- Result of the signup handler: HTTP status, the error message if any, the
created identity if any, and the provider calls performed, in order. -/
structure SignupResult where
  status : Nat
  errMsg : Option String
  created : Option CreatedUser
  calls : List ProviderCall
deriving DecidableEq

/-- Embedding of `POST /auth/signup`. `existingEmails` is the list of emails
the provider's `listUsers` reports (the duplicate check is
`u.email === email`, an exact string comparison); `newId` is the id the
provider assigns on creation and `createOk` whether `createUser` succeeds.
Validation order follows the source: required fields, then password length,
then the duplicate scan, then creation. -/
def signup (existingEmails : List String) (newId : String) (createOk : Bool)
    (body : SignupBody) : SignupResult :=
  if !truthyS body.email || !truthyS body.password
      || !truthyS body.name || !truthyS body.role then
    ⟨400, some "Email, password, name, and role are required", none, []⟩
  else if (body.password.getD "").length < 6 then
    ⟨400, some "Password must be at least 6 characters long", none, []⟩
  else if existingEmails.any (fun e => e == body.email.getD "") then
    ⟨400, some "An account with this email already exists", none, [.listUsers]⟩
  else if !createOk then
    ⟨400, some "Failed to create account", none,
      [.listUsers, .createUser (body.email.getD "")]⟩
  else
    ⟨200, none, some ⟨newId, body.email.getD ""⟩,
      [.listUsers, .createUser (body.email.getD "")]⟩

/-! ## Protected handlers -/

/-- Embedding of `POST /user/university`: verify auth, require a truthy
`university_id`, then `kv.set` under `user:<id>:university`. -/
def saveUniversity (getUser : String → Option ProviderUser)
    (authHeader : Option String) (body : UnivBody) (store : Store) :
    Nat × Except String Unit × Store :=
  match (verifyAuth getUser authHeader).1 with
  | none => (401, .error "Unauthorized - Please login with your credentials", store)
  | some user =>
    if !truthyS body.university_id then
      (400, .error "University ID is required", store)
    else
      (200, .ok (),
        kvSet store ("user:" ++ user.userId ++ ":university")
          (.univ (body.university_id.getD "")))

/-- Embedding of `POST /user/location`: verify auth, require truthy
`latitude` and `longitude`, then `kv.set` under `user:<id>:location` with
`address || null` and the current ISO timestamp. -/
def saveLocation (getUser : String → Option ProviderUser)
    (authHeader : Option String) (body : LocationBody) (now : String)
    (store : Store) : Nat × Except String Unit × Store :=
  match (verifyAuth getUser authHeader).1 with
  | none => (401, .error "Unauthorized - Please login with your credentials", store)
  | some user =>
    if !truthyQ body.latitude || !truthyQ body.longitude then
      (400, .error "Latitude and longitude are required", store)
    else
      (200, .ok (),
        kvSet store ("user:" ++ user.userId ++ ":location")
          (.location ⟨body.latitude.getD 0, body.longitude.getD 0,
            jsOr body.address, now⟩))

/-- What `supabase.auth.admin.getUserById` yields: the `user_metadata`
fields the profile handler reads. -/
structure UserMeta where
  name : Option String
  role : Option String
deriving DecidableEq

/-- The success payload of `GET /user/profile`. -/
structure ProfilePayload where
  id : String
  email : String
  name : Option String
  role : Option String
  university : Option StoredValue
  location : Option StoredValue
deriving DecidableEq

/-- Embedding of `GET /user/profile`: verify auth, read metadata from the
provider and the `university` / `location` records from the store. Performs
no store mutation; the store is returned unchanged. -/
def getProfile (getUser : String → Option ProviderUser)
    (adminGetUser : String → Option UserMeta)
    (authHeader : Option String) (store : Store) :
    Nat × Except String ProfilePayload × Store :=
  match (verifyAuth getUser authHeader).1 with
  | none => (401, .error "Unauthorized - Please login with your credentials", store)
  | some user =>
    (200, .ok
      ⟨user.userId, user.email,
        (adminGetUser user.userId).bind (fun m => m.name),
        (adminGetUser user.userId).bind (fun m => m.role),
        kvGet store ("user:" ++ user.userId ++ ":university"),
        kvGet store ("user:" ++ user.userId ++ ":location")⟩,
      store)

/-- Embedding of `POST /user/pickup-route`: verify auth, require truthy
`bus_id`, `pickup_latitude`, `pickup_longitude`, then `kv.set` under
`user:<id>:pickup-route`. -/
def savePickupRoute (getUser : String → Option ProviderUser)
    (authHeader : Option String) (body : PickupBody) (now : String)
    (store : Store) : Nat × Except String Unit × Store :=
  match (verifyAuth getUser authHeader).1 with
  | none => (401, .error "Unauthorized - Please login with your credentials", store)
  | some user =>
    if !truthyS body.bus_id || !truthyQ body.pickup_latitude
        || !truthyQ body.pickup_longitude then
      (400, .error "Bus ID and pickup coordinates are required", store)
    else
      (200, .ok (),
        kvSet store ("user:" ++ user.userId ++ ":pickup-route")
          (.pickupRoute ⟨body.bus_id.getD "", body.pickup_latitude.getD 0,
            body.pickup_longitude.getD 0, now⟩))

/-- Embedding of `GET /user/pickup-route`: verify auth then return the
stored route (or null). Performs no store mutation. -/
def getPickupRoute (getUser : String → Option ProviderUser)
    (authHeader : Option String) (store : Store) :
    Nat × Except String (Option StoredValue) × Store :=
  match (verifyAuth getUser authHeader).1 with
  | none => (401, .error "Unauthorized - Please login with your credentials", store)
  | some user =>
    (200, .ok (kvGet store ("user:" ++ user.userId ++ ":pickup-route")), store)

/-- Key of a feedback record:
`feedback:${driver_id}:${Date.now()}:${user.userId}`. -/
def feedbackKey (driver_id : String) (nowMs : Nat) (userId : String) : String :=
  "feedback:" ++ driver_id ++ ":" ++ toString nowMs ++ ":" ++ userId

/-- Embedding of `POST /feedback`: verify auth, require truthy `driver_id`
and `rating`, require `rating` in [1,5] (`rating < 1 || rating > 5` is
rejected), then `kv.set` under the feedback key. -/
def submitFeedback (getUser : String → Option ProviderUser)
    (authHeader : Option String) (body : FeedbackBody) (nowMs : Nat)
    (now : String) (store : Store) : Nat × Except String Unit × Store :=
  match (verifyAuth getUser authHeader).1 with
  | none => (401, .error "Unauthorized - Please login to submit feedback", store)
  | some user =>
    if !truthyS body.driver_id || !truthyQ body.rating then
      (400, .error "Driver ID and rating are required", store)
    else if body.rating.getD 0 < 1 ∨ body.rating.getD 0 > 5 then
      (400, .error "Rating must be between 1 and 5", store)
    else
      (200, .ok (),
        kvSet store (feedbackKey (body.driver_id.getD "") nowMs user.userId)
          (.feedback ⟨body.driver_id.getD "", user.userId, user.email,
            body.rating.getD 0, jsOr body.comment, now⟩))

/-- The scan prefix `feedback:${driverId}:` used by the public
list-feedback endpoint. -/
def fbPre (driverId : String) : String :=
  "feedback:" ++ driverId ++ ":"

/-- Embedding of `GET /drivers/:driverId/feedback`: a public route — note it
takes no Authorization header and no provider — returning every stored value
whose key starts with `feedback:<driverId>:`. -/
def getDriverFeedback (driverId : String) (store : Store) :
    Nat × List StoredValue :=
  (200, kvGetByPre store (fbPre driverId))

/-- One successful feedback write, as performed by `POST /feedback`: the
driver id and timestamp that build the key, the verified author id, and the
record stored. Used to state properties of the prefix scan over any set of
previously written feedback records. -/
structure FeedbackWrite where
  driver_id : String
  ts : Nat
  user_id : String
  record : FeedbackRecord
deriving DecidableEq

/-- The key a `FeedbackWrite` is stored under. -/
def fbwKey (w : FeedbackWrite) : String :=
  feedbackKey w.driver_id w.ts w.user_id

/-- Apply a sequence of feedback writes to a store, in order, each as the
`kv.set` the feedback handler performs. -/
def applyWrites (ws : List FeedbackWrite) (s : Store) : Store :=
  ws.foldl (fun st w => kvSet st (fbwKey w) (.feedback w.record)) s

/-- The rational 5/2, built directly in lowest terms: a concrete
non-integral rating strictly inside [1,5]. -/
def q52 : ℚ := ⟨5, 2, by norm_num, by norm_num⟩

theorem data_append (a b : String) : (a ++ b).data = a.data ++ b.data := rfl

theorem string_eq_of_data {a b : String} (h : a.data = b.data) : a = b := by
  cases a; cases b; cases h; rfl

theorem startsWithB_iff (s p : String) : startsWithB s p = true ↔ p.data <+: s.data := by
  simp [startsWithB, List.isPrefixOf_iff_prefix]

theorem append_marker_pre_iff {α : Type} (c : α) (a b r : List α)
    (ha : c ∉ a) (hb : c ∉ b) : a ++ [c] <+: b ++ c :: r ↔ a = b := by
  induction a generalizing b with
  | nil =>
    cases b with
    | nil => simp
    | cons y b' =>
      simp only [List.nil_append, List.cons_append, List.cons_prefix_cons]
      constructor
      · rintro ⟨rfl, -⟩
        exact absurd (List.mem_cons_self _ _) hb
      · intro h
        cases h
  | cons x a' ih =>
    cases b with
    | nil =>
      simp only [List.nil_append, List.cons_append, List.cons_prefix_cons]
      constructor
      · rintro ⟨rfl, -⟩
        exact absurd (List.mem_cons_self _ _) ha
      · intro h
        cases h
    | cons y b' =>
      have ha' : c ∉ a' := fun h => ha (List.mem_cons_of_mem _ h)
      have hb' : c ∉ b' := fun h => hb (List.mem_cons_of_mem _ h)
      simp only [List.cons_append, List.cons_prefix_cons, ih b' ha' hb',
        List.cons.injEq]

theorem colon_data : (":" : String).data = [':'] := rfl

theorem fbPre_data (d : String) :
    (fbPre d).data = "feedback:".data ++ (d.data ++ [':']) := by
  simp [fbPre, data_append, colon_data]

theorem fbwKey_data (w : FeedbackWrite) :
    (fbwKey w).data = "feedback:".data ++
      (w.driver_id.data ++ ':' :: ((toString w.ts).data ++ ':' :: w.user_id.data)) := by
  simp [fbwKey, feedbackKey, data_append, colon_data]

theorem startsWithB_fbwKey_fbPre (w : FeedbackWrite) (d : String)
    (hw : ':' ∉ w.driver_id.data) (hd : ':' ∉ d.data) :
    startsWithB (fbwKey w) (fbPre d) = true ↔ w.driver_id = d := by
  rw [startsWithB_iff, fbPre_data, fbwKey_data, List.prefix_append_right_inj,
    append_marker_pre_iff ':' _ _ _ hd hw]
  constructor
  · intro h
    exact string_eq_of_data h.symm
  · intro h
    cases h
    rfl

theorem kvGet_kvSet_self {α : Type} (s : List (String × α)) (k : String) (v : α) :
    kvGet (kvSet s k v) k = some v := by
  simp [kvGet, kvSet, List.find?_cons_of_pos]

theorem find?_filter_ne {α : Type} (s : List (String × α)) (k k' : String)
    (h : k' ≠ k) :
    (s.filter (fun p => p.1 != k)).find? (fun p => p.1 == k')
      = s.find? (fun p => p.1 == k') := by
  induction s with
  | nil => rfl
  | cons a t ih =>
    by_cases ha : a.1 = k
    · rw [List.filter_cons_of_neg (by simp [ha]), ih]
      exact (List.find?_cons_of_neg t
        (by simp only [ha, beq_iff_eq]; exact fun hh => h hh.symm)).symm
    · rw [List.filter_cons_of_pos (by simp [ha])]
      by_cases ha' : a.1 = k'
      · rw [List.find?_cons_of_pos _ (by simp [ha']),
          List.find?_cons_of_pos _ (by simp [ha'])]
      · rw [List.find?_cons_of_neg _ (by simp [ha']),
          List.find?_cons_of_neg _ (by simp [ha']), ih]

theorem kvGet_kvSet_ne {α : Type} (s : List (String × α)) (k k' : String) (v : α)
    (h : k' ≠ k) : kvGet (kvSet s k v) k' = kvGet s k' := by
  simp only [kvGet, kvSet]
  rw [show List.find? (fun p => p.1 == k') ((k, v) :: List.filter (fun p => p.1 != k) s)
      = List.find? (fun p => p.1 == k') (List.filter (fun p => p.1 != k) s) from
    List.find?_cons_of_neg _ (by simp only [beq_iff_eq]; exact fun hh => h hh.symm),
    find?_filter_ne s k k' h]

theorem mem_kvSet {α : Type} {s : List (String × α)} {k k' : String} {v v' : α} :
    (k', v') ∈ kvSet s k v ↔ (k' = k ∧ v' = v) ∨ ((k', v') ∈ s ∧ k' ≠ k) := by
  simp only [kvSet, List.mem_cons, List.mem_filter, Prod.mk.injEq, bne_iff_ne,
    ne_eq]

theorem mem_kvGetByPre {α : Type} {s : List (String × α)} {p : String} {v : α} :
    v ∈ kvGetByPre s p ↔ ∃ k, (k, v) ∈ s ∧ startsWithB k p = true := by
  simp only [kvGetByPre, List.mem_map, List.mem_filter]
  constructor
  · rintro ⟨⟨k, w⟩, ⟨hm, hp⟩, rfl⟩
    exact ⟨k, hm, hp⟩
  · rintro ⟨k, hm, hp⟩
    exact ⟨(k, v), ⟨hm, hp⟩, rfl⟩

theorem mem_applyWrites {ws : List FeedbackWrite} {s : Store}
    (hnd : (ws.map fbwKey).Nodup) {k : String} {v : StoredValue} :
    (k, v) ∈ applyWrites ws s ↔
      (∃ w ∈ ws, fbwKey w = k ∧ StoredValue.feedback w.record = v) ∨
      ((k, v) ∈ s ∧ ∀ w ∈ ws, fbwKey w ≠ k) := by
  induction ws generalizing s with
  | nil => simp [applyWrites]
  | cons w ws ih =>
    have hw : fbwKey w ∉ ws.map fbwKey := (List.nodup_cons.1 hnd).1
    have hnd' : (ws.map fbwKey).Nodup := (List.nodup_cons.1 hnd).2
    have hstep : applyWrites (w :: ws) s
        = applyWrites ws (kvSet s (fbwKey w) (.feedback w.record)) := rfl
    rw [hstep, ih hnd']
    constructor
    · rintro (⟨u, hu, hk, hv⟩ | ⟨hm, hall⟩)
      · exact Or.inl ⟨u, List.mem_cons_of_mem _ hu, hk, hv⟩
      · rcases mem_kvSet.1 hm with ⟨rfl, rfl⟩ | ⟨hms, hne⟩
        · exact Or.inl ⟨w, List.mem_cons_self _ _, rfl, rfl⟩
        · refine Or.inr ⟨hms, ?_⟩
          intro u hu
          rcases List.mem_cons.1 hu with rfl | hu'
          · exact fun hh => hne hh.symm
          · exact hall u hu'
    · rintro (⟨u, hu, hk, hv⟩ | ⟨hm, hall⟩)
      · rcases List.mem_cons.1 hu with rfl | hu'
        · refine Or.inr ⟨mem_kvSet.2 (Or.inl ⟨hk.symm, hv.symm⟩), ?_⟩
          intro x hx hkx
          exact hw (hkx.trans hk.symm ▸ List.mem_map_of_mem fbwKey hx)
        · exact Or.inl ⟨u, hu', hk, hv⟩
      · refine Or.inr ⟨mem_kvSet.2 (Or.inr ⟨hm, fun hh => hall w (List.mem_cons_self _ _) hh.symm⟩), ?_⟩
        intro u hu
        exact hall u (List.mem_cons_of_mem _ hu)

theorem feedbackKey_data (d : String) (ts : Nat) (u : String) :
    (feedbackKey d ts u).data = "feedback:".data ++
      (d.data ++ ':' :: ((toString ts).data ++ ':' :: u.data)) := by
  simp [feedbackKey, data_append, colon_data]

theorem fbPre_pre_feedbackKey (d : String) (ts : Nat) (u : String) :
    startsWithB (feedbackKey d ts u) (fbPre d) = true := by
  rw [startsWithB_iff, fbPre_data, feedbackKey_data, List.prefix_append_right_inj]
  exact (List.prefix_append_right_inj d.data).2 (by simp)

/-- Claim C1: for each protected handler (save university, save location, fetch
profile, save pickup-route, get pickup-route, submit feedback), when the
Authorization header does not verify to an identity (absent, malformed, or
rejected by the provider), the handler returns the 401 Unauthorized response
and leaves the store unchanged — no `set` is executed. -/
theorem c1_protected_unauthorized (getUser : String → Option ProviderUser)
    (adminGetUser : String → Option UserMeta) (h : Option String)
    (ub : UnivBody) (lb : LocationBody) (pb : PickupBody) (fb : FeedbackBody)
    (now : String) (nowMs : Nat) (store : Store)
    (hauth : (verifyAuth getUser h).1 = none) :
    saveUniversity getUser h ub store
      = (401, .error "Unauthorized - Please login with your credentials", store)
    ∧ saveLocation getUser h lb now store
      = (401, .error "Unauthorized - Please login with your credentials", store)
    ∧ getProfile getUser adminGetUser h store
      = (401, .error "Unauthorized - Please login with your credentials", store)
    ∧ savePickupRoute getUser h pb now store
      = (401, .error "Unauthorized - Please login with your credentials", store)
    ∧ getPickupRoute getUser h store
      = (401, .error "Unauthorized - Please login with your credentials", store)
    ∧ submitFeedback getUser h fb nowMs now store
      = (401, .error "Unauthorized - Please login to submit feedback", store) := by
  simp [saveUniversity, saveLocation, getProfile, savePickupRoute,
    getPickupRoute, submitFeedback, hauth]

theorem c1_protected_unauthorized_w :
    saveUniversity (fun _ => none) (some "Token abc") ⟨some "u7"⟩ []
      = (401, .error "Unauthorized - Please login with your credentials", [])
    ∧ submitFeedback (fun _ => none) (some "Token abc") ⟨some "d1", some 3, none⟩ 7 "t" []
      = (401, .error "Unauthorized - Please login to submit feedback", []) := by
  have h := c1_protected_unauthorized (fun _ => none) (fun _ => none)
    (some "Token abc") ⟨some "u7"⟩ ⟨none, none, none⟩ ⟨none, none, none⟩
    ⟨some "d1", some 3, none⟩ "t" 7 [] (by decide)
  exact ⟨h.1, h.2.2.2.2.2⟩

/-- Claim C10: `verifyAuth` returns the unauthenticated result without any provider
call when the header is null or does not start with the exact case-sensitive
string `"Bearer "`; the provider is consulted only for headers of that exact
shape. -/
theorem c10_verify_header_shape :
    (∀ getUser, verifyAuth getUser none = (none, []))
    ∧ (∀ getUser s, startsWithB s "Bearer " = false →
        verifyAuth getUser (some s) = (none, []))
    ∧ (∀ getUser h, (verifyAuth getUser h).2 ≠ [] →
        ∃ s, h = some s ∧ startsWithB s "Bearer " = true) := by
  refine ⟨fun g => rfl, fun g s hs => by simp [verifyAuth, hs], fun g h hc => ?_⟩
  match h with
  | none => exact absurd rfl hc
  | some s =>
    by_cases hs : startsWithB s "Bearer " = true
    · exact ⟨s, rfl, hs⟩
    · rw [Bool.not_eq_true] at hs
      have : verifyAuth g (some s) = (none, []) := by simp [verifyAuth, hs]
      exact absurd (congrArg Prod.snd this) hc

theorem c10_verify_header_shape_w :
    verifyAuth (fun _ => some ⟨"u1", some "e@x"⟩) (some "bearer tok") = (none, []) :=
  c10_verify_header_shape.2.1 (fun _ => some ⟨"u1", some "e@x"⟩) "bearer tok" (by decide)

/-- Claim C7: a signup whose password is shorter than 6 characters (email, name
and role present) is rejected with a validation error before any call to the
identity provider — neither the user listing nor user creation is invoked. -/
theorem c7_short_password (existing : List String) (newId : String)
    (createOk : Bool) (body : SignupBody)
    (he : truthyS body.email = true) (hn : truthyS body.name = true)
    (hr : truthyS body.role = true)
    (hp : (body.password.getD "").length < 6) :
    (signup existing newId createOk body).status = 400
    ∧ (signup existing newId createOk body).calls = [] := by
  by_cases hpw : truthyS body.password = true
  · simp [signup, he, hn, hr, hpw, hp]
  · rw [Bool.not_eq_true] at hpw
    simp [signup, he, hn, hr, hpw]

theorem c7_short_password_w :
    (signup ["x@y.z"] "id1" true
      ⟨some "a@b.c", some "12345", some "Stu", some "student", none, none, none⟩).status = 400
    ∧ (signup ["x@y.z"] "id1" true
      ⟨some "a@b.c", some "12345", some "Stu", some "student", none, none, none⟩).calls = [] :=
  c7_short_password ["x@y.z"] "id1" true _ (by decide) (by decide) (by decide) (by decide)

/-- Claim C4 counterexample: with an existing identity `a@b.c`, a signup for
`A@b.c` — the same email up to letter case — is NOT rejected as a duplicate:
the handler's duplicate scan compares emails with `===` (case-sensitively),
so the identity is created (status 200). -/
theorem c4_case_email_cex :
    (signup ["a@b.c"] "id1" true
      ⟨some "A@b.c", some "123456", some "Stu", some "student", none, none, none⟩).status = 200
    ∧ (signup ["a@b.c"] "id1" true
      ⟨some "A@b.c", some "123456", some "Stu", some "student", none, none, none⟩).created
        = some ⟨"id1", "A@b.c"⟩
    ∧ eqUpToCase "A@b.c" "a@b.c" = true
    ∧ "A@b.c" ≠ "a@b.c" := by decide

/-- Claim C4 amended: the duplicate check is case-sensitive. A signup whose email
exactly equals an existing identity's email is rejected as a duplicate (400)
with no identity created; a first signup with valid inputs and an email not
exactly present is created. -/
theorem c4_duplicate_email (existing : List String) (newId : String)
    (body : SignupBody)
    (he : truthyS body.email = true) (hpw : truthyS body.password = true)
    (hn : truthyS body.name = true) (hr : truthyS body.role = true)
    (hp : ¬(body.password.getD "").length < 6) :
    ((body.email.getD "") ∈ existing →
      (signup existing newId true body).status = 400
      ∧ (signup existing newId true body).created = none)
    ∧ ((body.email.getD "") ∉ existing →
      (signup existing newId true body).status = 200
      ∧ (signup existing newId true body).created
          = some ⟨newId, body.email.getD ""⟩) := by
  constructor
  · intro hmem
    have hdup : existing.any (fun e => e == body.email.getD "") = true := by
      rw [List.any_eq_true]
      exact ⟨_, hmem, by simp⟩
    simp [signup, he, hpw, hn, hr, hp, hdup]
  · intro hmem
    have hdup : existing.any (fun e => e == body.email.getD "") = false := by
      rw [Bool.eq_false_iff]
      intro hc
      rw [List.any_eq_true] at hc
      obtain ⟨e, hel, hee⟩ := hc
      exact hmem ((beq_iff_eq.1 hee) ▸ hel)
    simp [signup, he, hpw, hn, hr, hp, hdup]

theorem c4_duplicate_email_w :
    ((signup ["a@b.c"] "id2" true
      ⟨some "a@b.c", some "123456", some "Stu", some "student", none, none, none⟩).status = 400
    ∧ (signup ["a@b.c"] "id2" true
      ⟨some "a@b.c", some "123456", some "Stu", some "student", none, none, none⟩).created = none)
    ∧ ((signup [] "id3" true
      ⟨some "n@w.e", some "123456", some "Stu", some "student", none, none, none⟩).status = 200
    ∧ (signup [] "id3" true
      ⟨some "n@w.e", some "123456", some "Stu", some "student", none, none, none⟩).created
        = some ⟨"id3", "n@w.e"⟩) :=
  ⟨(c4_duplicate_email ["a@b.c"] "id2" _ (by decide) (by decide) (by decide)
      (by decide) (by decide)).1 (by decide),
   (c4_duplicate_email [] "id3" _ (by decide) (by decide) (by decide)
      (by decide) (by decide)).2 (by decide)⟩

/-- Claim C5: a save-location request whose `latitude` is the number 0 (longitude
present and truthy) is rejected as missing coordinates, exactly as when
`latitude` is absent, and nothing is stored; likewise a save-pickup-route
request whose `pickup_latitude` is 0. -/
theorem c5_zero_latitude_rejected (getUser : String → Option ProviderUser)
    (h : Option String) (user : AuthUser) (lon : ℚ) (addr : Option String)
    (now : String) (store : Store) (bus : String) (plon : ℚ)
    (hauth : (verifyAuth getUser h).1 = some user)
    (hlon : lon ≠ 0) (hbus : bus ≠ "") (hplon : plon ≠ 0) :
    saveLocation getUser h ⟨some 0, some lon, addr⟩ now store
      = (400, .error "Latitude and longitude are required", store)
    ∧ saveLocation getUser h ⟨none, some lon, addr⟩ now store
      = saveLocation getUser h ⟨some 0, some lon, addr⟩ now store
    ∧ savePickupRoute getUser h ⟨some bus, some 0, some plon⟩ now store
      = (400, .error "Bus ID and pickup coordinates are required", store)
    ∧ savePickupRoute getUser h ⟨some bus, none, some plon⟩ now store
      = savePickupRoute getUser h ⟨some bus, some 0, some plon⟩ now store := by
  simp [saveLocation, savePickupRoute, hauth, truthyQ, truthyS]

theorem c5_zero_latitude_rejected_w :
    saveLocation (fun _ => some ⟨"u1", some "e@x"⟩) (some "Bearer t")
      ⟨some 0, some 7, none⟩ "now" []
      = (400, .error "Latitude and longitude are required", []) :=
  (c5_zero_latitude_rejected (fun _ => some ⟨"u1", some "e@x"⟩) (some "Bearer t")
    ⟨"u1", "e@x"⟩ 7 none "now" [] "b1" 8 (by decide) (by norm_num) (by decide)
    (by norm_num)).1

/-- Claim C8: for an authenticated user with no stored pickup route, the
get-pickup-route handler returns success (200) with an absent route, not an
error, and does not mutate the store. -/
theorem c8_absent_route_success (getUser : String → Option ProviderUser)
    (h : Option String) (user : AuthUser) (store : Store)
    (hauth : (verifyAuth getUser h).1 = some user)
    (hnone : kvGet store ("user:" ++ user.userId ++ ":pickup-route") = none) :
    getPickupRoute getUser h store = (200, .ok none, store) := by
  simp [getPickupRoute, hauth, hnone]

theorem c8_absent_route_success_w :
    getPickupRoute (fun _ => some ⟨"u1", some "e@x"⟩) (some "Bearer t") []
      = (200, .ok none, []) :=
  c8_absent_route_success (fun _ => some ⟨"u1", some "e@x"⟩) (some "Bearer t")
    ⟨"u1", "e@x"⟩ [] (by decide) (by decide)


/-- Claim C3 counterexample: with an authenticated caller and a present driver id,
the rating 5/2 — not an integer — is accepted: the handler only checks
`rating < 1 || rating > 5`, so the write proceeds (status 200, store
mutated), where the claim demands a 400 rejection. -/
theorem c3_noninteger_rating_cex :
    (submitFeedback (fun _ => some ⟨"u1", some "u@x"⟩) (some "Bearer t")
      ⟨some "d1", some q52, none⟩ 7 "ts" []).1 = 200
    ∧ (submitFeedback (fun _ => some ⟨"u1", some "u@x"⟩) (some "Bearer t")
      ⟨some "d1", some q52, none⟩ 7 "ts" []).2.2 ≠ []
    ∧ q52.den ≠ 1 := by decide

/-- Claim C3 amended: with an authenticated caller and a present driver id, a
present rating outside [1,5] is rejected with a validation error (400) and
nothing is stored; every rating in [1,5] — integral or not — is accepted
and the write proceeds, in particular the boundaries 1 and 5. -/
theorem c3_rating_range (getUser : String → Option ProviderUser)
    (h : Option String) (user : AuthUser) (body : FeedbackBody)
    (nowMs : Nat) (now : String) (store : Store) (q : ℚ)
    (hauth : (verifyAuth getUser h).1 = some user)
    (hd : truthyS body.driver_id = true) (hq : body.rating = some q) :
    (q < 1 ∨ q > 5 →
      (submitFeedback getUser h body nowMs now store).1 = 400
      ∧ (submitFeedback getUser h body nowMs now store).2.2 = store)
    ∧ (1 ≤ q ∧ q ≤ 5 →
      submitFeedback getUser h body nowMs now store
        = (200, .ok (),
            kvSet store (feedbackKey (body.driver_id.getD "") nowMs user.userId)
              (.feedback ⟨body.driver_id.getD "", user.userId, user.email, q,
                jsOr body.comment, now⟩))) := by
  constructor
  · intro hrange
    by_cases h0 : q = 0
    · simp [submitFeedback, hauth, hd, hq, truthyQ, h0]
    · simp [submitFeedback, hauth, hd, hq, truthyQ, h0, hrange]
  · rintro ⟨h1, h5⟩
    have h0 : q ≠ 0 := by
      intro hh
      rw [hh] at h1
      norm_num at h1
    have hnr : ¬(q < 1 ∨ q > 5) := by
      push_neg
      exact ⟨h1, h5⟩
    simp [submitFeedback, hauth, hd, hq, truthyQ, h0, hnr]

theorem c3_rating_range_w :
    (submitFeedback (fun _ => some ⟨"u1", some "u@x"⟩) (some "Bearer t")
      ⟨some "d1", some 1, none⟩ 7 "ts" []
      = (200, .ok (), kvSet [] (feedbackKey "d1" 7 "u1")
          (.feedback ⟨"d1", "u1", "u@x", 1, none, "ts"⟩)))
    ∧ (submitFeedback (fun _ => some ⟨"u1", some "u@x"⟩) (some "Bearer t")
      ⟨some "d1", some 5, none⟩ 7 "ts" []
      = (200, .ok (), kvSet [] (feedbackKey "d1" 7 "u1")
          (.feedback ⟨"d1", "u1", "u@x", 5, none, "ts"⟩)))
    ∧ (submitFeedback (fun _ => some ⟨"u1", some "u@x"⟩) (some "Bearer t")
      ⟨some "d1", some 6, none⟩ 7 "ts" []).1 = 400 := by
  refine ⟨?_, ?_, ?_⟩
  · exact (c3_rating_range (fun _ => some ⟨"u1", some "u@x"⟩) (some "Bearer t")
      ⟨"u1", "u@x"⟩ ⟨some "d1", some 1, none⟩ 7 "ts" [] 1 (by decide) (by decide)
      rfl).2 ⟨le_refl 1, by norm_num⟩
  · exact (c3_rating_range (fun _ => some ⟨"u1", some "u@x"⟩) (some "Bearer t")
      ⟨"u1", "u@x"⟩ ⟨some "d1", some 5, none⟩ 7 "ts" [] 5 (by decide) (by decide)
      rfl).2 ⟨by norm_num, le_refl 5⟩
  · exact ((c3_rating_range (fun _ => some ⟨"u1", some "u@x"⟩) (some "Bearer t")
      ⟨"u1", "u@x"⟩ ⟨some "d1", some 6, none⟩ 7 "ts" [] 6 (by decide) (by decide)
      rfl).1 (by norm_num)).1

/-- Claim C6: `set` followed by `get` on the same key returns exactly the value
written, for any value type; overwriting leaves only the second value; and
through the handlers, saving a location twice for the same user leaves only
the second value retrievable via the profile path. -/
theorem c6_set_get_roundtrip :
    (∀ (α : Type) (s : List (String × α)) (k : String) (v : α),
        kvGet (kvSet s k v) k = some v)
    ∧ (∀ (α : Type) (s : List (String × α)) (k : String) (v₁ v₂ : α),
        kvGet (kvSet (kvSet s k v₁) k v₂) k = some v₂)
    ∧ (∀ (getUser : String → Option ProviderUser)
        (adminGetUser : String → Option UserMeta) (h : Option String)
        (user : AuthUser) (b₁ b₂ : LocationBody) (now₁ now₂ : String)
        (store : Store),
        (verifyAuth getUser h).1 = some user →
        truthyQ b₁.latitude = true → truthyQ b₁.longitude = true →
        truthyQ b₂.latitude = true → truthyQ b₂.longitude = true →
        (getProfile getUser adminGetUser h
            ((saveLocation getUser h b₂ now₂
              ((saveLocation getUser h b₁ now₁ store).2.2)).2.2)).2.1
          = .ok ⟨user.userId, user.email,
              (adminGetUser user.userId).bind (fun m => m.name),
              (adminGetUser user.userId).bind (fun m => m.role),
              kvGet ((saveLocation getUser h b₂ now₂
                ((saveLocation getUser h b₁ now₁ store).2.2)).2.2)
                ("user:" ++ user.userId ++ ":university"),
              some (.location ⟨b₂.latitude.getD 0, b₂.longitude.getD 0,
                jsOr b₂.address, now₂⟩)⟩) := by
  refine ⟨fun α s k v => kvGet_kvSet_self s k v,
    fun α s k v₁ v₂ => kvGet_kvSet_self _ k v₂,
    fun getUser adminGetUser h user b₁ b₂ now₁ now₂ store hauth h1a h1o h2a h2o => ?_⟩
  have hs1 : (saveLocation getUser h b₁ now₁ store).2.2
      = kvSet store ("user:" ++ user.userId ++ ":location")
          (.location ⟨b₁.latitude.getD 0, b₁.longitude.getD 0, jsOr b₁.address, now₁⟩) := by
    simp [saveLocation, hauth, h1a, h1o]
  have hs2 : (saveLocation getUser h b₂ now₂
      ((saveLocation getUser h b₁ now₁ store).2.2)).2.2
      = kvSet ((saveLocation getUser h b₁ now₁ store).2.2)
          ("user:" ++ user.userId ++ ":location")
          (.location ⟨b₂.latitude.getD 0, b₂.longitude.getD 0, jsOr b₂.address, now₂⟩) := by
    simp [saveLocation, hauth, h2a, h2o]
  simp [getProfile, hauth, hs2, kvGet_kvSet_self]

theorem c6_set_get_roundtrip_w :
    kvGet (kvSet ([] : List (String × Nat)) "k" 3) "k" = some 3 :=
  c6_set_get_roundtrip.1 Nat [] "k" 3

/-- Claim C9: every record written by submit-feedback embeds the author's email
next to their user id, and the public list-feedback endpoint — which takes
no Authorization header at all — returns it unfiltered, so the email is
readable without authentication. -/
theorem c9_email_public (getUser : String → Option ProviderUser)
    (h : Option String) (user : AuthUser) (d : String) (q : ℚ)
    (comment : Option String) (nowMs : Nat) (now : String) (store : Store)
    (hauth : (verifyAuth getUser h).1 = some user)
    (hd : d ≠ "") (h1 : 1 ≤ q) (h5 : q ≤ 5) :
    (submitFeedback getUser h ⟨some d, some q, comment⟩ nowMs now store).1 = 200
    ∧ StoredValue.feedback ⟨d, user.userId, user.email, q, jsOr comment, now⟩
        ∈ (getDriverFeedback d
            ((submitFeedback getUser h ⟨some d, some q, comment⟩ nowMs now store).2.2)).2 := by
  have h0 : q ≠ 0 := by
    intro hh
    rw [hh] at h1
    norm_num at h1
  have hnr : ¬(q < 1 ∨ q > 5) := by
    push_neg
    exact ⟨h1, h5⟩
  have hsf : submitFeedback getUser h ⟨some d, some q, comment⟩ nowMs now store
      = (200, .ok (), kvSet store (feedbackKey d nowMs user.userId)
          (.feedback ⟨d, user.userId, user.email, q, jsOr comment, now⟩)) := by
    simp [submitFeedback, hauth, truthyS, truthyQ, hd, h0, hnr]
  rw [hsf]
  refine ⟨rfl, ?_⟩
  show _ ∈ kvGetByPre _ (fbPre d)
  exact mem_kvGetByPre.2 ⟨feedbackKey d nowMs user.userId,
    mem_kvSet.2 (Or.inl ⟨rfl, rfl⟩), fbPre_pre_feedbackKey d nowMs user.userId⟩

theorem c9_email_public_w :
    StoredValue.feedback ⟨"d1", "u1", "u@x", 4, none, "ts"⟩
      ∈ (getDriverFeedback "d1"
          ((submitFeedback (fun _ => some ⟨"u1", some "u@x"⟩) (some "Bearer t")
            ⟨some "d1", some 4, none⟩ 7 "ts" []).2.2)).2 :=
  (c9_email_public (fun _ => some ⟨"u1", some "u@x"⟩) (some "Bearer t")
    ⟨"u1", "u@x"⟩ "d1" 4 none 7 "ts" [] (by decide) (by decide) (by norm_num)
    (by norm_num)).2

/-- Claim C2 counterexample: driver ids may contain the `:` delimiter. After one
feedback record for driver `a` and one for driver `a:b` (distinct drivers,
distinct keys), the scan for driver `a` — `getByPrefix "feedback:a:"` —
also returns the record of driver `a:b`, so it does not return "no record of
any other driver". -/
theorem c2_scan_leak_cex :
    StoredValue.feedback ⟨"a:b", "u2", "e2", 3, none, "t"⟩
      ∈ (getDriverFeedback "a" (applyWrites
          [⟨"a", 1, "u1", ⟨"a", "u1", "e1", 4, none, "t"⟩⟩,
           ⟨"a:b", 2, "u2", ⟨"a:b", "u2", "e2", 3, none, "t"⟩⟩] [])).2
    ∧ "a:b" ≠ "a" := by decide

/-- Claim C2 amended: provided driver ids contain no `:` (the key delimiter) and
the written records have pairwise distinct keys (distinct
(driver, timestamp, author) triples), the list-feedback scan for driver `d1`
returns exactly the records written for `d1` — every one of them and no
record of any other driver — whatever the write order. -/
theorem c2_scan_exact (ws : List FeedbackWrite) (d1 : String)
    (hcf : ∀ w ∈ ws, ':' ∉ w.driver_id.data) (hd1 : ':' ∉ d1.data)
    (hnd : (ws.map fbwKey).Nodup) (v : StoredValue) :
    v ∈ (getDriverFeedback d1 (applyWrites ws [])).2 ↔
      ∃ w ∈ ws, w.driver_id = d1 ∧ StoredValue.feedback w.record = v := by
  show v ∈ kvGetByPre _ (fbPre d1) ↔ _
  rw [mem_kvGetByPre]
  constructor
  · rintro ⟨k, hk, hp⟩
    rcases (mem_applyWrites hnd).1 hk with ⟨w, hw, hkey, hval⟩ | ⟨hm, -⟩
    · subst hkey
      exact ⟨w, hw, (startsWithB_fbwKey_fbPre w d1 (hcf w hw) hd1).1 hp, hval⟩
    · cases hm
  · rintro ⟨w, hw, hdid, hval⟩
    exact ⟨fbwKey w, (mem_applyWrites hnd).2 (Or.inl ⟨w, hw, rfl, hval⟩),
      (startsWithB_fbwKey_fbPre w d1 (hcf w hw) hd1).2 hdid⟩

theorem c2_scan_exact_w :
    StoredValue.feedback ⟨"d1", "u1", "e1", 4, none, "t"⟩
      ∈ (getDriverFeedback "d1" (applyWrites
          [⟨"d2", 1, "u2", ⟨"d2", "u2", "e2", 3, none, "t"⟩⟩,
           ⟨"d1", 2, "u1", ⟨"d1", "u1", "e1", 4, none, "t"⟩⟩] [])).2
    ↔ ∃ w ∈ [(⟨"d2", 1, "u2", ⟨"d2", "u2", "e2", 3, none, "t"⟩⟩ : FeedbackWrite),
        ⟨"d1", 2, "u1", ⟨"d1", "u1", "e1", 4, none, "t"⟩⟩],
        w.driver_id = "d1"
        ∧ StoredValue.feedback w.record
            = StoredValue.feedback ⟨"d1", "u1", "e1", 4, none, "t"⟩ :=
  c2_scan_exact
    [⟨"d2", 1, "u2", ⟨"d2", "u2", "e2", 3, none, "t"⟩⟩,
     ⟨"d1", 2, "u1", ⟨"d1", "u1", "e1", 4, none, "t"⟩⟩] "d1"
    (by decide) (by decide) (by decide) _
